import Mathlib

/-!
Verification development for the PyAutoArray excerpt: a shallow embedding of
the mask, transformer, interferometer-dataset, ACS-instrument and plotting-wrap
code, with theorems settling the stated properties of each component.

Numeric values carried by the Python code (floats) are modelled as rationals.
Python exceptions are modelled with `Except`, all exception classes collected
into one inductive carrying the message string.
-/

namespace PyAutoArray

/-- The exception classes of `autoarray.exc` (and Python built-ins) that the
embedded code can raise, each carrying its message. -/
inductive PyExc where
  | frameExc (msg : String)
  | arrayExc (msg : String)
  | maskExc (msg : String)
  | plottingExc (msg : String)
  | dataExc (msg : String)
  | typeError (msg : String)
  deriving DecidableEq, Repr

/-- Python's `a in b` on strings: `a` is a contiguous substring of `b`.
(The source uses this operator where equality may have been intended, e.g.
`exposure_info.original_units in "COUNTS"` and `self.kwargs["norm"] in "linear"`;
the embedding reproduces the substring semantics.) -/
def pyIn (a b : String) : Bool :=
  decide (a.data <:+: b.data)

/-! ## ACS instrument (`autoarray/instruments/acs.py`) -/

/-- `fits_hdu_from_quadrant_letter` of `acs.py`: hdu 1 for quadrants A/B,
hdu 4 for C/D, `FrameException` otherwise. -/
def fits_hdu_from_quadrant_letter (quadrant_letter : String) : Except PyExc Nat :=
  if quadrant_letter == "A" || quadrant_letter == "B" then
    .ok 1
  else if quadrant_letter == "C" || quadrant_letter == "D" then
    .ok 4
  else
    .error (.frameExc "Quadrant letter for FrameACS must be A, B, C or D.")

/-- `ExposureInfoACS` of `acs.py`: the calibration metadata read from the FITS
headers.  The source stores these attributes with `None` defaults; the claims
exercise only states where every attribute is present (as produced by
`exposure_info_from_fits`), so the fields are carried directly. -/
structure ExposureInfoACS where
  original_units : String
  bscale : ℚ
  bzero : ℚ
  exposure_time : ℚ
  hdu : Nat
  deriving DecidableEq, Repr

/-- `ImageACS.array_converted_to_electrons_from_fits` of `acs.py`, applied to
the raw 2D array already read from the FITS file (`do_not_scale_image_data`):
`if exposure_info.original_units in "COUNTS"` scale by `bscale` and shift by
`bzero`; `elif ... in "CPS"` additionally multiply by the exposure time;
otherwise the Python function falls through and returns `None`. -/
def array_converted_to_electrons_from_fits (array : List (List ℚ))
    (exposure_info : ExposureInfoACS) : Option (List (List ℚ)) :=
  if pyIn exposure_info.original_units "COUNTS" then
    some (array.map (fun row => row.map (fun x => x * exposure_info.bscale + exposure_info.bzero)))
  else if pyIn exposure_info.original_units "CPS" then
    some (array.map (fun row => row.map
      (fun x => x * exposure_info.exposure_time * exposure_info.bscale + exposure_info.bzero)))
  else
    none

/-! ## Mask subsystem (`autoarray/mask/mask.py`) -/

/-- The Python values that reach `pixel_scales` in the mask constructors:
a bare float, a bare int, a 2-tuple of floats, or `None`.  The constructors
branch on the *exact runtime type* (`type(...) is float`, `type(...) is tuple`),
which this inductive reproduces. -/
inductive PyPixelScales where
  | pyFloat (s : ℚ)
  | pyInt (n : ℤ)
  | pyPair (y x : ℚ)
  | pyNone
  deriving DecidableEq, Repr

/-- A boolean numpy array: its `shape` and row-major flattened entries. -/
structure NdArrayBool where
  shape : List Nat
  data : List Bool
  deriving DecidableEq, Repr

/-- The `Mask` object as built by `Mask.__new__`: the boolean array plus the
`pixel_scales`, `sub_size` and `origin` attributes attached to it. -/
structure Mask where
  mask : NdArrayBool
  pixel_scales : PyPixelScales
  sub_size : Nat
  origin : ℚ × ℚ
  deriving DecidableEq, Repr

/-- `Mask.manual` of `mask.py`: optionally invert, broadcast a scalar
`pixel_scales` to a pair only when its exact type is `float`, reject inputs
that are not two dimensional, then construct the `Mask`. -/
def Mask.manual (mask : NdArrayBool) (pixel_scales : PyPixelScales)
    (sub_size : Nat) (origin : ℚ × ℚ) (invert : Bool) : Except PyExc Mask :=
  let mask := if invert then { mask with data := mask.data.map (fun b => !b) } else mask
  let pixel_scales := match pixel_scales with
    | .pyFloat s => .pyPair s s
    | ps => ps
  if mask.shape.length ≠ 2 then
    .error (.maskExc "The input mask is not a two dimensional array")
  else
    .ok { mask := mask, pixel_scales := pixel_scales, sub_size := sub_size, origin := origin }

/-- The `pixel_scales` normalization at the head of `Mask.circular` (and the
other geometric constructors):

`if type(pixel_scales) is not tuple: if type(pixel_scales) is float or int: ...`

Note the inner condition is `(type(pixel_scales) is float) or int`, which is
always truthy, so *every* non-tuple input is passed through
`(float(pixel_scales), float(pixel_scales))`; `float(None)` raises `TypeError`. -/
def circularNormalizeScales : PyPixelScales → Except PyExc PyPixelScales
  | .pyPair y x => .ok (.pyPair y x)
  | .pyFloat s => .ok (.pyPair s s)
  | .pyInt n => .ok (.pyPair (n : ℚ) (n : ℚ))
  | .pyNone => .error (.typeError "float() argument must be a string or a number, not NoneType")

/-- The `(y, x)` scale pair held by a `pyPair`; the geometric constructors only
reach this after `circularNormalizeScales` has produced a pair. -/
def scalesOfPair : PyPixelScales → ℚ × ℚ
  | .pyPair y x => (y, x)
  | .pyFloat s => (s, s)
  | .pyInt n => ((n : ℚ), (n : ℚ))
  | .pyNone => (0, 0)

/-- Modelled from the spec: `mask_util.mask_circular_from` is not under `src/`.
Per the spec, it unmasks (entry `False`) exactly the pixels whose scaled centre
lies within `radius` of `centre`, where pixel `(i, j)` of a `(s0, s1)` grid has
scaled centre `(((s0-1)/2 - i)*psY, (j - (s1-1)/2)*psX)` (y decreasing with row
index, matching the image convention). -/
def mask_circular_from (shape_2d : Nat × Nat) (pixel_scales : ℚ × ℚ)
    (radius : ℚ) (centre : ℚ × ℚ) : NdArrayBool :=
  let s0 := shape_2d.1
  let s1 := shape_2d.2
  { shape := [s0, s1]
    data := (List.range s0).flatMap (fun i =>
      (List.range s1).map (fun j =>
        let y : ℚ := (((s0 : ℚ) - 1) / 2 - (i : ℚ)) * pixel_scales.1
        let x : ℚ := ((j : ℚ) - ((s1 : ℚ) - 1) / 2) * pixel_scales.2
        ! decide ((y - centre.1) ^ 2 + (x - centre.2) ^ 2 ≤ radius ^ 2)))
  }

/-- `Mask.circular` of `mask.py`: normalize `pixel_scales`, generate the
circular boolean mask, and delegate to `Mask.manual`. -/
def Mask.circular (shape_2d : Nat × Nat) (radius : ℚ) (pixel_scales : PyPixelScales)
    (sub_size : Nat) (origin centre : ℚ × ℚ) (invert : Bool) : Except PyExc Mask := do
  let pixel_scales ← circularNormalizeScales pixel_scales
  let m := mask_circular_from shape_2d (scalesOfPair pixel_scales) radius centre
  Mask.manual m pixel_scales sub_size origin invert

/-! ## Transformer operators (`autoarray/operators/transformer.py`) -/

/-- An autoarray `Array`-like image as consumed by the transformers: the numpy
`shape` of the object, and its binned packed representation `in_1d_binned`
(used by the direct-DFT transformer). -/
structure ImageStruct where
  shape : List Nat
  binned_1d : List ℚ
  deriving DecidableEq, Repr

/-- Dot product of two rational vectors. -/
def dotQ (xs ys : List ℚ) : ℚ :=
  (List.zipWith (· * ·) xs ys).sum

/-- The direct-DFT `Transformer` after `__init__` with `preload_transform=True`:
its `uv_wavelengths` and the preloaded cosine/sine kernel matrices (one row per
visibility sample).  The trigonometric preload computation lives in
`transformer_util` (not under `src/`); the matrices are carried as state, which
is exactly what the source object stores. -/
structure Transformer where
  uv_wavelengths : List (ℚ × ℚ)
  preload_real_transforms : List (List ℚ)
  preload_imag_transforms : List (List ℚ)
  deriving DecidableEq, Repr

/-- `Transformer.real_visibilities_from_image`: the preloaded real kernel matrix
applied to the image's `in_1d_binned` vector (`transformer_util.
real_visibilities_from_image_via_preload_jit`, modelled from the spec's
`Re = sum_j image_j * cos(2 pi (u x_j + v y_j))` with the cosines preloaded). -/
def Transformer.real_visibilities_from_image (t : Transformer) (image : ImageStruct) : List ℚ :=
  t.preload_real_transforms.map (fun row => dotQ row image.binned_1d)

/-- `Transformer.imag_visibilities_from_image`: the preloaded imaginary kernel
matrix applied to the image's `in_1d_binned` vector. -/
def Transformer.imag_visibilities_from_image (t : Transformer) (image : ImageStruct) : List ℚ :=
  t.preload_imag_transforms.map (fun row => dotQ row image.binned_1d)

/-- `Transformer.visibilities_from_image` (direct DFT): stacks the real and
imaginary parts.  The source performs *no* dimensionality check on this path —
contrast with the FFT and NUFFT variants below. -/
def Transformer.visibilities_from_image (t : Transformer) (image : ImageStruct) :
    Except PyExc (List (ℚ × ℚ)) :=
  .ok (List.zip (t.real_visibilities_from_image image) (t.imag_visibilities_from_image image))

/-- `TransformerFFT` after `__init__`: the `uv_wavelengths`, and the FFT
pipeline (`np.fft.fft2`, the half-pixel `shift`, and the `RegularGridInterpolator`
resampling onto `self.uv`) abstracted as a function of the image — those steps
are external numerical-library calls. -/
structure TransformerFFT where
  uv_wavelengths : List (ℚ × ℚ)
  fft_pipeline : ImageStruct → List (ℚ × ℚ)

/-- `TransformerFFT.visibilities_from_image`: raises `ArrayException` unless
the image is exactly 2-dimensional, then runs the FFT pipeline. -/
def TransformerFFT.visibilities_from_image (t : TransformerFFT) (image : ImageStruct) :
    Except PyExc (List (ℚ × ℚ)) :=
  if image.shape.length ≠ 2 then
    .error (.arrayExc "Transformer image must be 2D")
  else
    .ok (t.fft_pipeline image)

/-- `TransformerNUFFT` after `__init__`: the `uv_wavelengths`, and the planned
non-uniform FFT `forward` call composed with the `shift` phase correction,
abstracted as a function of the image — the NUFFT itself is the external
`pynufft` library. -/
structure TransformerNUFFT where
  uv_wavelengths : List (ℚ × ℚ)
  forward_shifted : ImageStruct → List (ℚ × ℚ)

/-- `TransformerNUFFT.visibilities_from_image`: raises `ArrayException` unless
the image is exactly 2-dimensional, then applies the planned NUFFT and shift. -/
def TransformerNUFFT.visibilities_from_image (t : TransformerNUFFT) (image : ImageStruct) :
    Except PyExc (List (ℚ × ℚ)) :=
  if image.shape.length ≠ 2 then
    .error (.arrayExc "Transformer image must be 2D")
  else
    .ok (t.forward_shifted image)

/-! ## Interferometer dataset (`autoarray/dataset/interferometer.py`) -/

/-- `AbstractInterferometer`: visibilities (stored as `data` by the parent
`AbstractDataset`), noise map, uv wavelengths, optional positions and name.
A complex visibility sample is carried as its `(real, imag)` pair. -/
structure AbstractInterferometer where
  data : List (ℚ × ℚ)
  noise_map : List (ℚ × ℚ)
  uv_wavelengths : List (ℚ × ℚ)
  positions : Option (List (ℚ × ℚ))
  name : Option String
  deriving DecidableEq, Repr

/-- The `visibilities` property: an alias of `data`. -/
def AbstractInterferometer.visibilities (d : AbstractInterferometer) : List (ℚ × ℚ) :=
  d.data

/-- `AbstractInterferometer.modified_visibilities_from_visibilities`: deep copy
the dataset and replace only its `data` with the new visibilities. -/
def AbstractInterferometer.modified_visibilities_from_visibilities
    (d : AbstractInterferometer) (visibilities : List (ℚ × ℚ)) : AbstractInterferometer :=
  { d with data := visibilities }

/-- The image `Array` handled by the interferometer simulator: its 2D shape,
pixel scales, owning mask (passed to the transformer constructor as
`real_space_mask`) and values. -/
structure SimImage where
  shape_2d : Nat × Nat
  pixel_scales : ℚ × ℚ
  maskOf : NdArrayBool
  values : List ℚ
  deriving DecidableEq, Repr

/-- `arrays.Array.zeros(shape_2d=..., pixel_scales=...)`: an all-zero array of
the given shape and pixel scales (its mask is the all-`False` unmasked mask). -/
def SimImage.zeros (shape_2d : Nat × Nat) (pixel_scales : ℚ × ℚ) : SimImage :=
  { shape_2d := shape_2d
    pixel_scales := pixel_scales
    maskOf := { shape := [shape_2d.1, shape_2d.2]
                data := List.replicate (shape_2d.1 * shape_2d.2) false }
    values := List.replicate (shape_2d.1 * shape_2d.2) 0 }

/-- Elementwise `image + background_sky_map` (numpy addition; the left
operand's structure metadata is retained). -/
def SimImage.add (a b : SimImage) : SimImage :=
  { a with values := List.zipWith (· + ·) a.values b.values }

/-- `vis.Visibilities.full(fill_value, shape_1d=(n,))`: `n` complex samples
whose real and imaginary parts both equal `fill_value`. -/
def Visibilities.full (fill_value : ℚ) (n : Nat) : List (ℚ × ℚ) :=
  List.replicate n (fill_value, fill_value)

/-- `np.isnan` on a value: rationals model the float data of the code and have
no NaN, so this is constantly `false`; the check in `from_image` is retained
structurally. -/
def qIsNaN (_ : ℚ) : Bool :=
  false

/-- A constructed transformer as used by `from_image`: its stored
`uv_wavelengths` and its `visibilities_from_image` method. -/
structure TransformerObj where
  uv_wavelengths : List (ℚ × ℚ)
  visFrom : SimImage → List (ℚ × ℚ)

/-- A transformer class as held in `self.transformer_class`: calling it with
`uv_wavelengths` and `real_space_mask` constructs a transformer. (The default,
`trans.TransformerDFT`, is defined outside `src/`; the simulator is
parameterized over the class exactly as the source is.) -/
structure TransformerClassModel where
  build : List (ℚ × ℚ) → NdArrayBool → TransformerObj

/-- `AbstractSimulatorInterferometer`: the constructor state of the simulator,
together with `preprocess.data_with_gaussian_noise_added` (a module not under
`src/`, and a source of randomness) abstracted as the `noise_model` field. -/
structure AbstractSimulatorInterferometer where
  uv_wavelengths : List (ℚ × ℚ)
  exposure_time_map : Option SimImage
  background_sky_map : Option SimImage
  transformer_class : TransformerClassModel
  noise_sigma : Option ℚ
  noise_if_add_noise_false : ℚ
  noise_seed : ℤ
  noise_model : List (ℚ × ℚ) → ℚ → ℤ → List (ℚ × ℚ)

/-- `AbstractSimulatorInterferometer.from_image`: build a one-off transformer
for the image's mask, add the background sky map (a zero map of the image's
shape and pixel scales when none is supplied), transform to visibilities, then
either add Gaussian noise and record a uniform `noise_sigma` noise map, or —
when `noise_sigma` is `None` — keep the visibilities and record a uniform
`noise_if_add_noise_false` noise map; raise `DataException` on a NaN noise map. -/
def AbstractSimulatorInterferometer.from_image (sim : AbstractSimulatorInterferometer)
    (image : SimImage) (name : Option String) : Except PyExc AbstractInterferometer :=
  let transformer := sim.transformer_class.build sim.uv_wavelengths image.maskOf
  let background_sky_map :=
    sim.background_sky_map.getD (SimImage.zeros image.shape_2d image.pixel_scales)
  let image := SimImage.add image background_sky_map
  let visibilities := transformer.visFrom image
  let noisy := match sim.noise_sigma with
    | some sigma =>
        let vs := sim.noise_model visibilities sigma sim.noise_seed
        (vs, Visibilities.full sigma vs.length)
    | none => (visibilities, Visibilities.full sim.noise_if_add_noise_false visibilities.length)
  if noisy.2.any (fun p => qIsNaN p.1 || qIsNaN p.2) then
    .error (.dataExc ("The noise-map has NaN values in it. This suggests your exposure time and / or" ++
      "background sky levels are too low, creating signal counts at or close to 0.0."))
  else
    .ok { data := noisy.1
          noise_map := noisy.2
          uv_wavelengths := transformer.uv_wavelengths
          positions := none
          name := name }

/-! ## Plotting wrap layer (`autoarray/plot/wrap_mat/wrap_mat.py`) -/

/-- The `Cmap` configuration reaching `norm_from_array`: the `vmin`, `vmax`,
`norm`, `linthresh` and `linscale` entries of its kwargs dict. -/
structure CmapConf where
  vmin : Option ℚ
  vmax : Option ℚ
  norm : String
  linthresh : ℚ
  linscale : ℚ
  deriving DecidableEq, Repr

/-- The three matplotlib normalization objects `norm_from_array` can build. -/
inductive NormResult where
  | normalize (vmin vmax : ℚ)
  | logNorm (vmin vmax : ℚ)
  | symLogNorm (vmin vmax linthresh linscale : ℚ)
  deriving DecidableEq, Repr

/-- `array.min()` over the flattened values (evaluated only when `vmin` is not
manually set). -/
def qListMin : List ℚ → ℚ
  | [] => 0
  | x :: xs => xs.foldl min x

/-- `array.max()` over the flattened values (evaluated only when `vmax` is not
manually set). -/
def qListMax : List ℚ → ℚ
  | [] => 0
  | x :: xs => xs.foldl max x

/-- `Cmap.norm_from_array`: resolve `vmin`/`vmax` from the kwargs or the
plotted array, then dispatch on `self.kwargs["norm"] in "linear"` /
`... in "log"` / `... in "symmetric_log"` — the Python substring operator —
substituting `1.0e-4` for a zero `vmin` under log normalization, and raising
`PlottingException` when no branch matches. -/
def Cmap.norm_from_array (c : CmapConf) (array : List ℚ) : Except PyExc NormResult :=
  let vmin := c.vmin.getD (qListMin array)
  let vmax := c.vmax.getD (qListMax array)
  if pyIn c.norm "linear" then
    .ok (.normalize vmin vmax)
  else if pyIn c.norm "log" then
    .ok (.logNorm (if vmin = 0 then 1 / 10000 else vmin) vmax)
  else if pyIn c.norm "symmetric_log" then
    .ok (.symLogNorm vmin vmax c.linthresh c.linscale)
  else
    .error (.plottingExc ("The normalization (norm) supplied to the plotter is not a valid string (must be " ++
      "\x7blinear, log, symmetric_log\x7d"))

/-- The attributes of a `Units` object consulted by the tick computation:
`use_scaled` (a bool after `Units.__init__`), `conversion_factor`
(float or `None`) and `in_kpc` (bool or `None`). -/
structure UnitsConf where
  use_scaled : Bool
  conversion_factor : Option ℚ
  in_kpc : Option Bool
  deriving DecidableEq, Repr

/-- Python truthiness of a bool-or-`None` attribute. -/
def pyTruthy : Option Bool → Bool
  | none => false
  | some b => b

/-- `np.linspace a b n`: `n` evenly spaced samples from `a` to `b` inclusive. -/
def linspaceQ (a b : ℚ) (n : Nat) : List ℚ :=
  (List.range n).map (fun i => a + (b - a) * i / (n - 1))

/-- `np.round(x, 2)`: round to two decimal places, ties to even. -/
def npRound2 (x : ℚ) : ℚ :=
  let y := x * 100
  let f := ⌊y⌋
  let n : ℤ :=
    if y - f < 1 / 2 then f
    else if y - f > 1 / 2 then f + 1
    else if Even f then f else f + 1
  (n : ℚ) / 100

/-- `.astype("int")` on a float value: truncation toward zero. -/
def pyTruncToInt (x : ℚ) : ℤ :=
  if 0 ≤ x then ⌊x⌋ else -⌊-x⌋

/-- `AbstractTicks.tick_values_in_units_from`: return early under
`use_defaults`; otherwise return the manual values, pixel-index labels when not
using scaled units, rounded scaled labels, or conversion-scaled labels — with a
trailing `raise PlottingException` branch.  `shape0` is `array.shape_2d[0]`,
the only part of the array the function reads. -/
def tick_values_in_units_from (manual_values : Option (List ℚ)) (shape0 : Nat)
    (min_value max_value : ℚ) (units : UnitsConf) (use_defaults : Bool) :
    Except PyExc (Option (List ℚ)) :=
  if use_defaults then
    .ok none
  else if h : manual_values.isSome then
    .ok (some (manual_values.get h))
  else if ¬ units.use_scaled then
    .ok (some ((linspaceQ 0 (shape0 : ℚ) 5).map (fun x => (pyTruncToInt x : ℚ))))
  else if (units.use_scaled && units.conversion_factor.isNone) || ¬ pyTruthy units.in_kpc then
    .ok (some ((linspaceQ min_value max_value 5).map npRound2))
  else if h : units.use_scaled && units.conversion_factor.isSome then
    let cf := units.conversion_factor.get (by simpa using (Bool.and_eq_true _ _ ▸ h).2)
    .ok (some ((linspaceQ (min_value * cf) (max_value * cf) 5).map npRound2))
  else
    .error (.plottingExc "The tick labels cannot be computed using the input options.")

/-- The matplotlib calls issued by the `Colorbar` methods, in order. -/
inductive PltCall where
  | colorbar (withTicks : Bool)
  | setYticklabels
  | tickParams
  | scalarMappable
  deriving DecidableEq, Repr

/-- The manual-override state of a `Colorbar` object. -/
structure ColorbarConf where
  manual_tick_values : Option (List ℚ)
  manual_tick_labels : Option (List ℚ)
  deriving DecidableEq, Repr

/-- `Colorbar.set`: draw a plain colorbar when neither manual override is
given, a ticked and relabelled one when both are, and raise
`PlottingException` when exactly one is; on success finish with `tick_params`.
The result is the trace of matplotlib calls. -/
def Colorbar.set (cb : ColorbarConf) : Except PyExc (List PltCall) :=
  if cb.manual_tick_values.isNone && cb.manual_tick_labels.isNone then
    .ok [.colorbar false, .tickParams]
  else if cb.manual_tick_values.isSome && cb.manual_tick_labels.isSome then
    .ok [.colorbar true, .setYticklabels, .tickParams]
  else
    .error (.plottingExc ("Only 1 entry of tick_values or tick_labels was input. You must either supply" ++
      "both the values and labels, or neither."))

/-- `Colorbar.set_with_values`: build the `ScalarMappable`, then draw the
colorbar when neither or both manual overrides are given — the method has no
`else` branch, so with exactly one override it silently draws nothing and
raises nothing.  The result is the trace of matplotlib calls. -/
def Colorbar.set_with_values (cb : ColorbarConf) : List PltCall :=
  let pre := [PltCall.scalarMappable]
  if cb.manual_tick_values.isNone && cb.manual_tick_labels.isNone then
    pre ++ [.colorbar false]
  else if cb.manual_tick_values.isSome && cb.manual_tick_labels.isSome then
    pre ++ [.colorbar true, .setYticklabels]
  else
    pre

/-! ## Theorems -/

/-- C5: `fits_hdu_from_quadrant_letter` returns 1 for "A" or "B", 4 for "C" or
"D", raises `FrameException` for every other input, and never returns any other
value. -/
theorem fits_hdu_from_quadrant_letter_cases (q : String) :
    (q = "A" ∨ q = "B" → fits_hdu_from_quadrant_letter q = .ok 1) ∧
    (q = "C" ∨ q = "D" → fits_hdu_from_quadrant_letter q = .ok 4) ∧
    (q ≠ "A" ∧ q ≠ "B" ∧ q ≠ "C" ∧ q ≠ "D" →
      fits_hdu_from_quadrant_letter q =
        .error (.frameExc "Quadrant letter for FrameACS must be A, B, C or D.")) ∧
    (∀ n, fits_hdu_from_quadrant_letter q = .ok n → n = 1 ∨ n = 4) := by
  refine ⟨?_, ?_, ?_, ?_⟩
  · rintro (rfl | rfl) <;> rfl
  · rintro (rfl | rfl) <;> rfl
  · rintro ⟨hA, hB, hC, hD⟩
    simp [fits_hdu_from_quadrant_letter, hA, hB, hC, hD]
  · intro n h
    unfold fits_hdu_from_quadrant_letter at h
    split at h
    · exact Or.inl (Except.ok.inj h).symm
    · split at h
      · exact Or.inr (Except.ok.inj h).symm
      · exact absurd h (by simp)

/-- C5 witness: the theorem applied at the concrete letters "A", "C" and "E". -/
theorem fits_hdu_from_quadrant_letter_cases_witness :
    fits_hdu_from_quadrant_letter "A" = .ok 1 ∧
    fits_hdu_from_quadrant_letter "C" = .ok 4 ∧
    fits_hdu_from_quadrant_letter "E" =
      .error (.frameExc "Quadrant letter for FrameACS must be A, B, C or D.") :=
  ⟨(fits_hdu_from_quadrant_letter_cases "A").1 (Or.inl rfl),
   (fits_hdu_from_quadrant_letter_cases "C").2.1 (Or.inl rfl),
   (fits_hdu_from_quadrant_letter_cases "E").2.2.1
     ⟨by decide, by decide, by decide, by decide⟩⟩

/-- C2: with original units exactly "COUNTS" the electron conversion is
`raw*bscale + bzero` elementwise, and with "CPS" it is
`raw*exposure_time*bscale + bzero` elementwise. -/
theorem array_converted_to_electrons_cases (array : List (List ℚ)) (info : ExposureInfoACS) :
    (info.original_units = "COUNTS" →
      array_converted_to_electrons_from_fits array info =
        some (array.map (fun row => row.map (fun x => x * info.bscale + info.bzero)))) ∧
    (info.original_units = "CPS" →
      array_converted_to_electrons_from_fits array info =
        some (array.map (fun row => row.map
          (fun x => x * info.exposure_time * info.bscale + info.bzero)))) := by
  constructor
  · intro h
    unfold array_converted_to_electrons_from_fits
    rw [h, if_pos (by decide)]
  · intro h
    unfold array_converted_to_electrons_from_fits
    rw [h, if_neg (by decide), if_pos (by decide)]

/-- C2 witness: the theorem applied at the literal sample values
`raw=10, bscale=2, bzero=1` (COUNTS gives 21) and additionally
`exposure_time=5` (CPS gives 101). -/
theorem array_converted_to_electrons_cases_witness :
    array_converted_to_electrons_from_fits [[10]]
      { original_units := "COUNTS", bscale := 2, bzero := 1, exposure_time := 5, hdu := 1 } =
      some [[21]] ∧
    array_converted_to_electrons_from_fits [[10]]
      { original_units := "CPS", bscale := 2, bzero := 1, exposure_time := 5, hdu := 1 } =
      some [[101]] := by
  constructor
  · rw [(array_converted_to_electrons_cases [[10]]
      { original_units := "COUNTS", bscale := 2, bzero := 1, exposure_time := 5, hdu := 1 }).1 rfl]
    norm_num
  · rw [(array_converted_to_electrons_cases [[10]]
      { original_units := "CPS", bscale := 2, bzero := 1, exposure_time := 5, hdu := 1 }).2 rfl]
    norm_num

/-- C6: `modified_visibilities_from_visibilities` returns a dataset whose
visibilities are the new ones while noise map, uv wavelengths, positions and
name are those of the original; the original value is untouched (the embedding
is pure, mirroring the source's deep copy). -/
theorem modified_visibilities_swaps_only_visibilities
    (d : AbstractInterferometer) (v : List (ℚ × ℚ)) :
    (d.modified_visibilities_from_visibilities v).visibilities = v ∧
    (d.modified_visibilities_from_visibilities v).noise_map = d.noise_map ∧
    (d.modified_visibilities_from_visibilities v).uv_wavelengths = d.uv_wavelengths ∧
    (d.modified_visibilities_from_visibilities v).positions = d.positions ∧
    (d.modified_visibilities_from_visibilities v).name = d.name :=
  ⟨rfl, rfl, rfl, rfl, rfl⟩

/-- C4: `Mask.manual` with a scalar float `s` is the same call as with the pair
`(s, s)`: the results agree exactly, and on success the stored `pixel_scales`
is the isotropic pair. -/
theorem mask_manual_float_broadcast (m : NdArrayBool) (s : ℚ) (k : Nat) (o : ℚ × ℚ) :
    Mask.manual m (.pyFloat s) k o false = Mask.manual m (.pyPair s s) k o false ∧
    ∀ mk, Mask.manual m (.pyFloat s) k o false = .ok mk →
      mk.pixel_scales = .pyPair s s ∧ mk.mask = m ∧ mk.sub_size = k ∧ mk.origin = o := by
  constructor
  · rfl
  · intro mk h
    have hnf : Mask.manual m (.pyFloat s) k o false =
        (if m.shape.length ≠ 2 then
          .error (.maskExc "The input mask is not a two dimensional array")
        else
          .ok { mask := m, pixel_scales := .pyPair s s, sub_size := k, origin := o }) := rfl
    rw [hnf] at h
    split at h
    · exact absurd h (by simp)
    · cases Except.ok.inj h
      exact ⟨rfl, rfl, rfl, rfl⟩

/-- C4 witness: the theorem applied to a concrete 2×2 mask and scale 1/2. -/
theorem mask_manual_float_broadcast_witness :
    Mask.manual ⟨[2, 2], [true, false, false, true]⟩ (.pyFloat (1/2)) 1 (0, 0) false =
      Mask.manual ⟨[2, 2], [true, false, false, true]⟩ (.pyPair (1/2) (1/2)) 1 (0, 0) false ∧
    ({ mask := ⟨[2, 2], [true, false, false, true]⟩, pixel_scales := .pyPair (1/2) (1/2),
       sub_size := 1, origin := (0, 0) } : Mask).pixel_scales = .pyPair (1/2) (1/2) :=
  ⟨(mask_manual_float_broadcast ⟨[2, 2], [true, false, false, true]⟩ (1/2) 1 (0, 0)).1,
   ((mask_manual_float_broadcast ⟨[2, 2], [true, false, false, true]⟩ (1/2) 1 (0, 0)).2 _ rfl).1⟩

/-- C9: `Mask.manual` stores a bare int scalar `pixel_scales` without
broadcasting (only an exact float is broadcast, as in the C4 theorem), whereas
`Mask.circular` normalizes both int and float scalars to a float pair. -/
theorem mask_manual_int_not_broadcast (m : NdArrayBool) (n : ℤ) (k : Nat) (o : ℚ × ℚ)
    (h2 : m.shape.length = 2) :
    Mask.manual m (.pyInt n) k o false =
      .ok { mask := m, pixel_scales := .pyInt n, sub_size := k, origin := o } ∧
    (∀ (shape : Nat × Nat) (r : ℚ) (og c : ℚ × ℚ) (su : Nat),
      ∃ mk : Mask, Mask.circular shape r (.pyInt n) su og c false = .ok mk ∧
        mk.pixel_scales = .pyPair (n : ℚ) (n : ℚ)) ∧
    (∀ (shape : Nat × Nat) (s : ℚ) (r : ℚ) (og c : ℚ × ℚ) (su : Nat),
      ∃ mk : Mask, Mask.circular shape r (.pyFloat s) su og c false = .ok mk ∧
        mk.pixel_scales = .pyPair s s) := by
  refine ⟨?_, ?_, ?_⟩
  · have hnf : Mask.manual m (.pyInt n) k o false =
        (if m.shape.length ≠ 2 then
          .error (.maskExc "The input mask is not a two dimensional array")
        else
          .ok { mask := m, pixel_scales := .pyInt n, sub_size := k, origin := o }) := rfl
    rw [hnf, if_neg (by simp [h2])]
  · intro shape r og c su
    exact ⟨{ mask := mask_circular_from shape ((n : ℚ), (n : ℚ)) r c,
             pixel_scales := .pyPair (n : ℚ) (n : ℚ), sub_size := su, origin := og },
           rfl, rfl⟩
  · intro shape s r og c su
    exact ⟨{ mask := mask_circular_from shape (s, s) r c,
             pixel_scales := .pyPair s s, sub_size := su, origin := og },
           rfl, rfl⟩

/-- C9 witness: the theorem applied to a concrete 1×1 mask and the int scalar 3. -/
theorem mask_manual_int_not_broadcast_witness :
    Mask.manual ⟨[1, 1], [false]⟩ (.pyInt 3) 1 (0, 0) false =
      .ok { mask := ⟨[1, 1], [false]⟩, pixel_scales := .pyInt 3, sub_size := 1, origin := (0, 0) } :=
  (mask_manual_int_not_broadcast ⟨[1, 1], [false]⟩ 3 1 (0, 0) (by decide)).1

/-- Helper: a noise map of rational values never contains a NaN entry. -/
theorem noiseAnyFalse (l : List (ℚ × ℚ)) :
    (l.any fun p => qIsNaN p.1 || qIsNaN p.2) = false := by
  induction l with
  | nil => rfl
  | cons a t ih => simp [List.any_cons, qIsNaN, ih]

/-- C1 counterexample: on a 1-dimensional image the direct-DFT `Transformer`
returns a visibility vector instead of raising `ArrayException` — it performs
no dimensionality check, unlike the FFT and NUFFT variants. -/
theorem transformer_direct_returns_on_1d_image :
    ([4] : List Nat).length ≠ 2 ∧
    Transformer.visibilities_from_image
      { uv_wavelengths := [(0, 0)]
        preload_real_transforms := [[1, 1, 1, 1]]
        preload_imag_transforms := [[0, 0, 0, 0]] }
      { shape := [4], binned_1d := [1, 2, 3, 4] } = .ok [(10, 0)] := by
  refine ⟨by decide, ?_⟩
  simp only [Transformer.visibilities_from_image, Transformer.real_visibilities_from_image,
    Transformer.imag_visibilities_from_image, dotQ]
  norm_num

/-- C1 amended: for non-2-dimensional images only `TransformerFFT` and
`TransformerNUFFT` raise `ArrayException`; the direct-DFT `Transformer` always
returns a visibility vector. -/
theorem transformer_shape_check_amended (tf : TransformerFFT) (tn : TransformerNUFFT)
    (td : Transformer) (image : ImageStruct) (h : image.shape.length ≠ 2) :
    tf.visibilities_from_image image = .error (.arrayExc "Transformer image must be 2D") ∧
    tn.visibilities_from_image image = .error (.arrayExc "Transformer image must be 2D") ∧
    ∃ v, td.visibilities_from_image image = .ok v := by
  refine ⟨?_, ?_, ⟨_, rfl⟩⟩
  · unfold TransformerFFT.visibilities_from_image
    rw [if_pos h]
  · unfold TransformerNUFFT.visibilities_from_image
    rw [if_pos h]

/-- C1 witness: the amended theorem applied to concrete FFT/NUFFT transformers
and a concrete 1-dimensional image. -/
theorem transformer_shape_check_amended_witness :
    TransformerFFT.visibilities_from_image ⟨[], fun _ => []⟩ ⟨[4], [1, 2, 3, 4]⟩ =
      .error (.arrayExc "Transformer image must be 2D") ∧
    TransformerNUFFT.visibilities_from_image ⟨[], fun _ => []⟩ ⟨[4], [1, 2, 3, 4]⟩ =
      .error (.arrayExc "Transformer image must be 2D") := by
  have h := transformer_shape_check_amended ⟨[], fun _ => []⟩ ⟨[], fun _ => []⟩
    ⟨[], [], []⟩ ⟨[4], [1, 2, 3, 4]⟩ (by decide)
  exact ⟨h.1, h.2.1⟩

/-- C3: `from_image` with `noise_sigma = None` returns an interferometer whose
noise map is uniformly `noise_if_add_noise_false` and whose visibilities are
the noiseless transformer output of `image + background_sky_map`, the
background defaulting to a zero map of the image's shape and pixel scales. -/
theorem simulator_from_image_noise_disabled (sim : AbstractSimulatorInterferometer)
    (image : SimImage) (name : Option String) (h : sim.noise_sigma = none) :
    sim.from_image image name = .ok
      { data := (sim.transformer_class.build sim.uv_wavelengths image.maskOf).visFrom
          (SimImage.add image (sim.background_sky_map.getD
            (SimImage.zeros image.shape_2d image.pixel_scales)))
        noise_map := Visibilities.full sim.noise_if_add_noise_false
          ((sim.transformer_class.build sim.uv_wavelengths image.maskOf).visFrom
            (SimImage.add image (sim.background_sky_map.getD
              (SimImage.zeros image.shape_2d image.pixel_scales)))).length
        uv_wavelengths := (sim.transformer_class.build sim.uv_wavelengths image.maskOf).uv_wavelengths
        positions := none
        name := name } := by
  unfold AbstractSimulatorInterferometer.from_image
  simp only [h, noiseAnyFalse, Bool.false_eq_true, if_false]

/-- C3 witness: the theorem applied to a concrete simulator (identity-style
transformer, no background map) and a concrete 1×2 image. -/
theorem simulator_from_image_noise_disabled_witness :
    AbstractSimulatorInterferometer.from_image
      { uv_wavelengths := [(1, 2)]
        exposure_time_map := none
        background_sky_map := none
        transformer_class := ⟨fun uv _ => ⟨uv, fun img => img.values.map (fun v => (v, 0))⟩⟩
        noise_sigma := none
        noise_if_add_noise_false := 1 / 10
        noise_seed := -1
        noise_model := fun v _ _ => v }
      ⟨(1, 2), (1, 1), ⟨[1, 2], [false, false]⟩, [3, 4]⟩ none =
      .ok { data := [(3, 0), (4, 0)]
            noise_map := [(1 / 10, 1 / 10), (1 / 10, 1 / 10)]
            uv_wavelengths := [(1, 2)]
            positions := none
            name := none } := by
  rw [simulator_from_image_noise_disabled _ _ none rfl]
  norm_num [SimImage.add, SimImage.zeros, Visibilities.full, List.replicate_succ,
    List.zipWith_cons_cons]

/-- C7 counterexample: the dispatch in `Cmap.norm_from_array` is the Python
substring operator, so the name "near" — none of "linear", "log",
"symmetric_log" — selects the linear branch instead of raising
`PlottingException`. -/
theorem cmap_norm_substring_match_counterexample :
    ("near" ≠ "linear" ∧ "near" ≠ "log" ∧ "near" ≠ "symmetric_log") ∧
    Cmap.norm_from_array ⟨some 0, some 1, "near", 1, 1⟩ [] = .ok (.normalize 0 1) := by
  exact ⟨⟨by decide, by decide, by decide⟩, rfl⟩

/-- C7 amended: the exact names "linear"/"log"/"symmetric_log" produce the
claimed normalizations (with the `1e-4` floor for a zero log `vmin`), and
`PlottingException` is raised exactly when the configured name is a substring
of none of the three (substring matches such as "near" select a branch). -/
theorem cmap_norm_from_array_amended (c : CmapConf) (array : List ℚ) :
    (c.norm = "linear" → Cmap.norm_from_array c array =
      .ok (.normalize (c.vmin.getD (qListMin array)) (c.vmax.getD (qListMax array)))) ∧
    (c.norm = "log" → Cmap.norm_from_array c array =
      .ok (.logNorm (if c.vmin.getD (qListMin array) = 0 then 1 / 10000
        else c.vmin.getD (qListMin array)) (c.vmax.getD (qListMax array)))) ∧
    (c.norm = "symmetric_log" → Cmap.norm_from_array c array =
      .ok (.symLogNorm (c.vmin.getD (qListMin array)) (c.vmax.getD (qListMax array))
        c.linthresh c.linscale)) ∧
    ((∃ e, Cmap.norm_from_array c array = .error e) ↔
      (pyIn c.norm "linear" = false ∧ pyIn c.norm "log" = false ∧
        pyIn c.norm "symmetric_log" = false)) := by
  refine ⟨?_, ?_, ?_, ?_⟩
  · intro h
    obtain ⟨v1, v2, nm, lt, ls⟩ := c
    cases h
    simp only [Cmap.norm_from_array]
    rw [if_pos (by decide)]
  · intro h
    obtain ⟨v1, v2, nm, lt, ls⟩ := c
    cases h
    simp only [Cmap.norm_from_array]
    rw [if_neg (by decide), if_pos (by decide)]
  · intro h
    obtain ⟨v1, v2, nm, lt, ls⟩ := c
    cases h
    simp only [Cmap.norm_from_array]
    rw [if_neg (by decide), if_neg (by decide), if_pos (by decide)]
  · unfold Cmap.norm_from_array
    by_cases h1 : pyIn c.norm "linear" = true <;>
      by_cases h2 : pyIn c.norm "log" = true <;>
        by_cases h3 : pyIn c.norm "symmetric_log" = true <;>
          simp [h1, h2, h3]

/-- C7 witness: the amended theorem applied at norm "log" with a zero `vmin`. -/
theorem cmap_norm_from_array_amended_witness :
    Cmap.norm_from_array ⟨some 0, some 5, "log", 1, 1⟩ [] = .ok (.logNorm (1 / 10000) 5) := by
  rw [(cmap_norm_from_array_amended ⟨some 0, some 5, "log", 1, 1⟩ []).2.1 rfl]
  norm_num

/-- Whether an `Except` result is a success. -/
def exceptIsOk {ε α : Type} : Except ε α → Bool
  | .ok _ => true
  | .error _ => false

/-- C8 counterexample: at concrete inputs covering every shape of units
configuration — `use_scaled` false/true, `conversion_factor` absent/present,
`in_kpc` absent/false/true — with manual tick values absent,
`tick_values_in_units_from` returns tick values; no configuration reaches the
`PlottingException` branch. -/
theorem tick_values_no_failing_configuration :
    exceptIsOk (tick_values_in_units_from none 4 0 1 ⟨false, none, none⟩ false) = true ∧
    exceptIsOk (tick_values_in_units_from none 4 0 1 ⟨false, some 2, some true⟩ false) = true ∧
    exceptIsOk (tick_values_in_units_from none 4 0 1 ⟨true, none, none⟩ false) = true ∧
    exceptIsOk (tick_values_in_units_from none 4 0 1 ⟨true, none, some false⟩ false) = true ∧
    exceptIsOk (tick_values_in_units_from none 4 0 1 ⟨true, none, some true⟩ false) = true ∧
    exceptIsOk (tick_values_in_units_from none 4 0 1 ⟨true, some 2, none⟩ false) = true ∧
    exceptIsOk (tick_values_in_units_from none 4 0 1 ⟨true, some 2, some false⟩ false) = true ∧
    exceptIsOk (tick_values_in_units_from none 4 0 1 ⟨true, some 2, some true⟩ false) = true :=
  ⟨rfl, rfl, rfl, rfl, rfl, rfl, rfl, rfl⟩

/-- Supporting the C8 correction in full generality:
`tick_values_in_units_from` never raises — for every combination of manual
values, shape, bounds, units configuration and `use_defaults` it returns a
(possibly absent) label vector. -/
theorem tick_values_never_raise (manual_values : Option (List ℚ)) (shape0 : Nat)
    (min_value max_value : ℚ) (units : UnitsConf) (use_defaults : Bool) :
    ∃ v, tick_values_in_units_from manual_values shape0 min_value max_value
      units use_defaults = .ok v := by
  obtain ⟨us, cf, ik⟩ := units
  cases use_defaults
  · cases manual_values
    · cases us
      · exact ⟨_, rfl⟩
      · cases cf
        · exact ⟨_, rfl⟩
        · rcases ik with _ | b
          · exact ⟨_, rfl⟩
          · cases b
            · exact ⟨_, rfl⟩
            · exact ⟨_, rfl⟩
    · exact ⟨_, rfl⟩
  · exact ⟨_, rfl⟩

/-- C8 amended: the `PlottingException` branch of
`tick_values_in_units_from` is unreachable — with manual tick values absent
(and defaults not requested) every units configuration yields tick labels. -/
theorem tick_values_manual_absent_returns_labels (shape0 : Nat) (min_value max_value : ℚ)
    (units : UnitsConf) :
    ∃ labels, tick_values_in_units_from none shape0 min_value max_value units false =
      .ok (some labels) := by
  obtain ⟨us, cf, ik⟩ := units
  cases us
  · exact ⟨_, rfl⟩
  · cases cf
    · exact ⟨_, rfl⟩
    · rcases ik with _ | b
      · exact ⟨_, rfl⟩
      · cases b
        · exact ⟨_, rfl⟩
        · exact ⟨_, rfl⟩

/-- C10: with exactly one of the manual tick overrides supplied,
`Colorbar.set_with_values` silently issues no colorbar drawing call (its trace
is only the `ScalarMappable` construction) while `Colorbar.set` raises
`PlottingException`. -/
theorem colorbar_set_with_values_vs_set_exactly_one (cb : ColorbarConf)
    (h : cb.manual_tick_values.isSome ≠ cb.manual_tick_labels.isSome) :
    Colorbar.set_with_values cb = [.scalarMappable] ∧
    Colorbar.set cb = .error (.plottingExc
      ("Only 1 entry of tick_values or tick_labels was input. You must either supply" ++
        "both the values and labels, or neither.")) := by
  obtain ⟨mv, ml⟩ := cb
  rcases mv with _ | v <;> rcases ml with _ | l
  · exact absurd rfl h
  · exact ⟨rfl, rfl⟩
  · exact ⟨rfl, rfl⟩
  · exact absurd rfl h

/-- C10 witness: the theorem applied with only `manual_tick_values` supplied. -/
theorem colorbar_set_with_values_vs_set_exactly_one_witness :
    Colorbar.set_with_values ⟨some [1], none⟩ = [.scalarMappable] ∧
    Colorbar.set ⟨some [1], none⟩ = .error (.plottingExc
      ("Only 1 entry of tick_values or tick_labels was input. You must either supply" ++
        "both the values and labels, or neither.")) :=
  colorbar_set_with_values_vs_set_exactly_one ⟨some [1], none⟩ (by decide)

end PyAutoArray
